/-
Verification of tap-intercom (a Singer/Meltano extraction connector) against
its natural-language specification.

The development shallowly embeds the locally authored parts of the tap:
  * `IntercomPaginator.get_next_url`      (tap_intercom/client.py)
  * `IntercomStream.prepare_request_payload` (tap_intercom/client.py)
  * `IntercomStream.url_base`             (tap_intercom/client.py)
  * the `ContentExportStream` job flow    (tap_intercom/streams.py):
    `request_content_export`, `get_records`, `get_payload`,
    `check_status`, `download_export`, `check_folder`, `get_filename`,
    `hour_rounder`
  * `TapIntercom.discover_streams` and `TapIntercom.sync_all` (tap_intercom/tap.py)

Python dynamic values are modelled by the inductive `Py`; a raised exception is
modelled by `Except PyErr`; the local filesystem is a flat association list of
literal paths; HTTP traffic and side effects are event traces.
-/
import Mathlib

namespace TapIntercom

/-! ## Python values

A JSON body parsed by `response.json()` is a Python value: `None`, `str`,
`int`, `bool`, `list` or `dict`.  A `dict` is an insertion-ordered association
list; lookup takes the first (and in real dicts only) binding of a key. -/

inductive Py where
  | none : Py
  | str  : String → Py
  | int  : Int → Py
  | bool : Bool → Py
  | list : List Py → Py
  | dict : List (String × Py) → Py
  deriving Repr

/-- Python exceptions relevant to the embedded code. -/
inductive PyErr where
  | keyError (k : String)
  | attributeError (msg : String)
  | typeError (msg : String)
  | valueError (msg : String)
  | httpError (msg : String)
  | ioError (msg : String)
  | badZipFile (msg : String)
  deriving Repr, DecidableEq

/-- `d.get(k)` on an association list: first binding, `Py.none` when absent. -/
def dictGet (kvs : List (String × Py)) (k : String) : Py :=
  match kvs.find? (fun p => p.1 == k) with
  | Option.some p => p.2
  | Option.none => Py.none

/-- `d.get(k, default)`. -/
def dictGetD (kvs : List (String × Py)) (k : String) (dflt : Py) : Py :=
  match kvs.find? (fun p => p.1 == k) with
  | Option.some p => p.2
  | Option.none => dflt

/-- `x.get(k)` on an arbitrary Python value: only dicts have `.get`,
anything else raises `AttributeError`. -/
def pyGet (x : Py) (k : String) : Except PyErr Py :=
  match x with
  | Py.dict kvs => Except.ok (dictGet kvs k)
  | _ => Except.error (PyErr.attributeError "no attribute get")

/-- `x.get(k, default)` on an arbitrary Python value. -/
def pyGetD (x : Py) (k : String) (dflt : Py) : Except PyErr Py :=
  match x with
  | Py.dict kvs => Except.ok (dictGetD kvs k dflt)
  | _ => Except.error (PyErr.attributeError "no attribute get")

/-- `x[k]` subscript on an arbitrary Python value: a dict raises `KeyError`
when the key is absent, non-subscriptable values raise `TypeError`. -/
def pyGetItem (x : Py) (k : String) : Except PyErr Py :=
  match x with
  | Py.dict kvs =>
      match kvs.find? (fun p => p.1 == k) with
      | Option.some p => Except.ok p.2
      | Option.none => Except.error (PyErr.keyError k)
  | _ => Except.error (PyErr.typeError "object is not subscriptable")

/-- `pat` occurs as a contiguous sublist of `s`. -/
def charListContains : List Char → List Char → Bool
  | [], pat => pat.isEmpty
  | c :: rest, pat => pat.isPrefixOf (c :: rest) || charListContains rest pat

/-- `pat` occurs as a substring of `s` (Python `pat in s` for strings). -/
def strContains (s pat : String) : Bool :=
  charListContains s.toList pat.toList

@[simp] theorem exceptOkBind {α β ε : Type} (a : α) (f : α → Except ε β) :
    (Except.ok a : Except ε α) >>= f = f a := rfl

@[simp] theorem exceptErrorBind {α β ε : Type} (e : ε) (f : α → Except ε β) :
    (Except.error e : Except ε α) >>= f = Except.error e := rfl

/-- Python `k in x`: key membership for a dict, substring test for a str,
element membership for a list; `TypeError` for the remaining types. -/
def pyContains (x : Py) (k : String) : Except PyErr Bool :=
  match x with
  | Py.dict kvs => Except.ok (kvs.any (fun p => p.1 == k))
  | Py.str s => Except.ok (strContains s k)
  | Py.list xs =>
      Except.ok (xs.any (fun x => match x with | Py.str s => s == k | _ => false))
  | _ => Except.error (PyErr.typeError "argument is not iterable")

/-! ## `IntercomPaginator.get_next_url`  (client.py lines 36-42)

```python
def get_next_url(self, response):
    data = response.json().get("pages", {})
    if data.get("next") is not None:
        if "starting_after" in data.get("next"):
            return data.get("next").get("starting_after")
        return data.get("next")
```

The argument is the parsed JSON body; the result is the returned value
(`Py.none` for the implicit fall-through return) or a raised exception. -/

def get_next_url (body : Py) : Except PyErr Py := do
  let data ← pyGetD body "pages" (Py.dict [])
  let nxt ← pyGet data "next"
  match nxt with
  | Py.none => Except.ok Py.none
  | nxt =>
      if ← pyContains nxt "starting_after" then
        pyGet nxt "starting_after"
      else
        Except.ok nxt

/-- C1 counterexample: the claim asserts `get_next_url` never raises "whether
`pages.next` is an object or a string URL".  On a response whose `pages.next`
is a string URL containing the substring `starting_after`, the code takes the
`"starting_after" in data.get("next")` branch (a substring test on a string)
and then calls `.get` on that string, raising `AttributeError`. -/
theorem get_next_url_raises_on_string_with_cursor :
    get_next_url (Py.dict [("pages", Py.dict [("next",
        Py.str "https://api.intercom.io/contacts?per_page=150&starting_after=abc")])])
      = Except.error (PyErr.attributeError "no attribute get") := by
  rfl

/-- C1 (amended): characterization of `IntercomPaginator.get_next_url`.
Given the parsed response body, with `data` the `pages` object (defaulting to
`{}` when absent): when `pages.next` is absent or null the result is `None`;
when `pages.next` is an object it returns the `starting_after` entry if that
key is present and otherwise the object itself; when `pages.next` is a string
it raises `AttributeError` if the string contains the substring
`starting_after` and otherwise returns the string itself. -/
theorem get_next_url_characterization
    (kvs pkvs : List (String × Py))
    (h : dictGetD kvs "pages" (Py.dict []) = Py.dict pkvs) :
    (dictGet pkvs "next" = Py.none →
       get_next_url (Py.dict kvs) = Except.ok Py.none) ∧
    (∀ nkvs, dictGet pkvs "next" = Py.dict nkvs →
       get_next_url (Py.dict kvs) =
         Except.ok (if nkvs.any (fun p => p.1 == "starting_after")
                    then dictGet nkvs "starting_after" else Py.dict nkvs)) ∧
    (∀ s, dictGet pkvs "next" = Py.str s →
       get_next_url (Py.dict kvs) =
         (if strContains s "starting_after"
          then Except.error (PyErr.attributeError "no attribute get")
          else Except.ok (Py.str s))) := by
  refine ⟨?_, ?_, ?_⟩
  · intro hn
    simp [get_next_url, pyGetD, pyGet, h, hn, Except.bind]
  · intro nkvs hn
    cases hb : nkvs.any (fun p => p.1 == "starting_after") <;>
      simp [get_next_url, pyGetD, pyGet, pyContains, h, hn, hb, Except.bind]
  · intro s hn
    cases hb : strContains s "starting_after" <;>
      simp [get_next_url, pyGetD, pyGet, pyContains, h, hn, hb, Except.bind]

/-- Witness for `get_next_url_characterization` at a concrete response whose
`pages.next` object carries a `starting_after` cursor. -/
theorem get_next_url_characterization_witness :
    get_next_url (Py.dict [("pages", Py.dict [("next",
        Py.dict [("starting_after", Py.str "tok")])])])
      = Except.ok (Py.str "tok") := by
  have h := (get_next_url_characterization
      [("pages", Py.dict [("next", Py.dict [("starting_after", Py.str "tok")])])]
      [("next", Py.dict [("starting_after", Py.str "tok")])] rfl).2.1
      [("starting_after", Py.str "tok")] rfl
  simpa [dictGet] using h

/-! ## Content-export flow as an event trace  (streams.py lines 789-803, 841-852)

```python
def request_content_export(self, context):
    self.check_folder('/tmp/intercom_data')
    if not os.listdir('/tmp/intercom_data'):
        job_identifier = self.get_job_identifier(context)
        while True:
            status = self.check_status(job_identifier)
            if status == 'completed':
                break
            else:
                time.sleep(10)
        self.download_export(job_identifier)
```

`download_export` performs one HTTP download, writes the zip under the
scratch directory, extracts it there and removes the zip.  The trace records
every externally visible action in order.  The poll loop consumes one status
response per iteration; a run in which no response is ever `completed` does
not terminate, modelled by `Option.none`. -/

inductive Ev where
  | makedirs (path : String)
  | submitJob
  | checkStatus (status : String)
  | sleep10
  | downloadRequest
  | writeFile (path : String)
  | extract (dir : String) (names : List String)
  | removeFile (path : String)
  deriving Repr, DecidableEq

/-- The `while True` poll loop: one `check_status` per iteration, `break` on
`'completed'`, otherwise a 10-second sleep before the next check.
`statuses` is the sequence of status-endpoint responses. -/
def pollStatuses : List String → Option (List Ev)
  | [] => Option.none
  | s :: rest =>
      if s = "completed" then Option.some [Ev.checkStatus s]
      else (pollStatuses rest).map (fun evs => Ev.checkStatus s :: Ev.sleep10 :: evs)

/-- Trace of `download_export` (streams.py lines 841-852): HTTP download,
write the archive, extract its members, delete the archive.  `zipNames` are
the member names of the downloaded archive. -/
def downloadTrace (zipNames : List String) : List Ev :=
  [Ev.downloadRequest,
   Ev.writeFile "/tmp/intercom_data/tmp_intercom_data.zip",
   Ev.extract "/tmp/intercom_data/" zipNames,
   Ev.removeFile "/tmp/intercom_data/tmp_intercom_data.zip"]

/-- Trace of `request_content_export`.  `dirExists`/`dirFiles` describe the
scratch directory before the call (after `check_folder` a newly created
directory lists empty). -/
def request_content_export_trace (dirExists : Bool) (dirFiles : List String)
    (statuses : List String) (zipNames : List String) : Option (List Ev) :=
  let setup := if dirExists then [] else [Ev.makedirs "/tmp/intercom_data"]
  let listing := if dirExists then dirFiles else []
  if listing.isEmpty then
    (pollStatuses statuses).map
      (fun t => setup ++ [Ev.submitJob] ++ t ++ downloadTrace zipNames)
  else Option.some setup

/-- The poll/download trace as the C2 claim words it: every status check that
returns something other than `completed` is followed by a 10-second sleep and
another check, and the download happens exactly once, immediately after the
first `completed` check; when no response is ever `completed` the flow never
reaches the download. -/
def contentExportSpecTrace (statuses : List String) (zipNames : List String) :
    Option (List Ev) :=
  if statuses.contains "completed" then
    Option.some ([Ev.submitJob] ++
      ((statuses.takeWhile (fun s => s != "completed")).map
        (fun s => [Ev.checkStatus s, Ev.sleep10])).flatten ++
      [Ev.checkStatus "completed"] ++ downloadTrace zipNames)
  else Option.none

theorem pollStatuses_eq_specPart (statuses : List String) :
    pollStatuses statuses =
      (if statuses.contains "completed" then
        Option.some
          (((statuses.takeWhile (fun s => s != "completed")).map
            (fun s => [Ev.checkStatus s, Ev.sleep10])).flatten ++
           [Ev.checkStatus "completed"])
       else Option.none) := by
  induction statuses with
  | nil => simp [pollStatuses]
  | cons s rest ih =>
      by_cases hs : s = "completed"
      · subst hs
        simp [pollStatuses]
      · have hbne : (s != "completed") = true := by simpa using hs
        have hne' : ¬ ("completed" = s) := fun h => hs h.symm
        rw [pollStatuses, if_neg hs, ih]
        by_cases hc : "completed" ∈ rest
        · simp [hc, hbne, hne', List.takeWhile_cons]
        · simp [hc, hbne, hne']

theorem downloadRequest_count_one (zipNames : List String) (pre : List Ev)
    (hpre : Ev.downloadRequest ∉ pre) :
    (pre ++ downloadTrace zipNames).count Ev.downloadRequest = 1 := by
  rw [List.count_append]
  rw [List.count_eq_zero_of_not_mem hpre]
  simp [downloadTrace, List.count_cons]

/-- C2: for every sequence of status responses, `request_content_export` (in
the branch that actually runs the export job) produces exactly the trace the
claim describes: every status check returning something other than
`completed` (including `failed`) is followed by a 10-second sleep and another
status check, the download happens immediately after the first `completed`
check, and the download request occurs exactly once in any terminating
trace. -/
theorem request_content_export_polls_until_completed
    (statuses : List String) (zipNames : List String) :
    request_content_export_trace true [] statuses zipNames
      = contentExportSpecTrace statuses zipNames ∧
    (∀ evs, request_content_export_trace true [] statuses zipNames = Option.some evs →
      evs.count Ev.downloadRequest = 1) := by
  have hmain : request_content_export_trace true [] statuses zipNames
      = contentExportSpecTrace statuses zipNames := by
    rw [request_content_export_trace, contentExportSpecTrace]
    rw [pollStatuses_eq_specPart]
    by_cases hc : "completed" ∈ statuses
    · simp [hc]
    · simp [hc]
  refine ⟨hmain, ?_⟩
  intro evs hevs
  rw [hmain, contentExportSpecTrace] at hevs
  by_cases hc : "completed" ∈ statuses
  · rw [if_pos (by simpa using hc)] at hevs
    have hevs' : evs = [Ev.submitJob] ++
        ((statuses.takeWhile (fun s => s != "completed")).map
          (fun s => [Ev.checkStatus s, Ev.sleep10])).flatten ++
        [Ev.checkStatus "completed"] ++ downloadTrace zipNames := by
      exact (Option.some.injEq _ _ ▸ hevs).symm
    rw [hevs']
    apply downloadRequest_count_one
    intro hmem
    simp only [List.append_assoc, List.mem_append] at hmem
    rcases hmem with h1 | h2 | h3
    · simp at h1
    · rcases List.mem_flatten.mp h2 with ⟨l, hl, hmem2⟩
      rcases List.mem_map.mp hl with ⟨s, _, rfl⟩
      simp at hmem2
    · simp at h3
  · rw [if_neg (by simpa using hc)] at hevs
    exact absurd hevs (by simp)

/-- Witness for `request_content_export_polls_until_completed`: with status
responses `failed` then `completed`, the flow checks, sleeps, re-checks, and
downloads exactly once after the `completed` check. -/
theorem request_content_export_polls_witness :
    request_content_export_trace true [] ["failed", "completed"]
        ["answer_20240101-000000.csv"]
      = Option.some
          [Ev.submitJob, Ev.checkStatus "failed", Ev.sleep10,
           Ev.checkStatus "completed", Ev.downloadRequest,
           Ev.writeFile "/tmp/intercom_data/tmp_intercom_data.zip",
           Ev.extract "/tmp/intercom_data/" ["answer_20240101-000000.csv"],
           Ev.removeFile "/tmp/intercom_data/tmp_intercom_data.zip"] ∧
    ([Ev.submitJob, Ev.checkStatus "failed", Ev.sleep10,
      Ev.checkStatus "completed", Ev.downloadRequest,
      Ev.writeFile "/tmp/intercom_data/tmp_intercom_data.zip",
      Ev.extract "/tmp/intercom_data/" ["answer_20240101-000000.csv"],
      Ev.removeFile "/tmp/intercom_data/tmp_intercom_data.zip"] : List Ev).count
        Ev.downloadRequest = 1 := by
  have h := request_content_export_polls_until_completed
      ["failed", "completed"] ["answer_20240101-000000.csv"]
  exact ⟨h.1.trans (by decide), h.2 _ (by decide)⟩

/-! ## CSV parsing in `ContentExportStream.get_records`  (streams.py 772-783)

```python
with open(f'/tmp/intercom_data/{stream_filename}', 'r') as current_file:
    first_line = current_file.readline()
    columns = first_line.strip().split(',')
    for line in current_file:
        if line != '':
            yield dict(zip(columns, line.strip().split(',')))
```

The file is modelled as the list of raw lines Python's file iteration yields:
every line keeps its trailing `'\n'` except possibly the last, so an iterated
line is never the empty string.  `dict(zip(columns, values))` pairs the header
names with the values, truncating to the shorter list; the embedding keeps the
ordered pair list produced by `zip` (a Python dict would additionally collapse
duplicate header names onto the last pair). -/

/-- The whitespace characters removed by Python's `str.strip()`. -/
def pyIsSpace (c : Char) : Bool :=
  c = ' ' || c = '\t' || c = '\n' || c = '\r' || c = '\x0b' || c = '\x0c'

/-- Remove trailing whitespace from a character list. -/
def stripRightChars (cs : List Char) : List Char :=
  (cs.reverse.dropWhile pyIsSpace).reverse

/-- Python `s.strip()`. -/
def pyStrip (s : String) : String :=
  String.mk ((stripRightChars s.toList).dropWhile pyIsSpace)

/-- Helper for `pySplitComma`: the current field is accumulated in reverse. -/
def splitCommaAux : List Char → List Char → List String
  | [], acc => [String.mk acc.reverse]
  | c :: rest, acc =>
      if c = ',' then String.mk acc.reverse :: splitCommaAux rest []
      else splitCommaAux rest (c :: acc)

/-- Python `s.split(',')`: the comma-separated fields; `''.split(',')` is
`['']`. -/
def pySplitComma (s : String) : List String :=
  splitCommaAux s.toList []

/-- The records yielded by `get_records` from an open export CSV file given as
its raw lines. -/
def content_export_records (rawLines : List String) :
    List (List (String × String)) :=
  let firstLine := rawLines.headD ""
  let columns := pySplitComma (pyStrip firstLine)
  ((rawLines.drop 1).filter (fun l => l != "")).map
    (fun line => columns.zip (pySplitComma (pyStrip line)))

/-- C3 as the claim words it: one record per data row, pairing the
comma-separated header names with the row's comma-split values, truncated to
the shorter of the two lists. -/
def csvSpecRecords (header : String) (rows : List String) :
    List (List (String × String)) :=
  rows.map (fun r => (pySplitComma header).zip (pySplitComma r))

theorem pyStrip_append_newline (l : String) : pyStrip (l ++ "\n") = pyStrip l := by
  unfold pyStrip stripRightChars
  have h1 : (l ++ "\n").toList = l.toList ++ ['\n'] := by
    simp [String.toList, String.data_append]
  rw [h1, List.reverse_append]
  simp [List.dropWhile_cons, pyIsSpace]

theorem append_newline_ne_empty (l : String) : l ++ "\n" ≠ "" := by
  intro h
  have h2 : (l ++ "\n").data = ("" : String).data := by rw [h]
  rw [String.data_append] at h2
  simp at h2

/-- C3: for every export CSV file whose first line is the comma-separated
header, `get_records` yields, for each subsequent line in file order, exactly
one record pairing the header column names with the line's comma-split
values, truncated to the shorter list.  (An iterated line carries its
trailing newline, so it is never the empty string and no row is skipped by
the `line != ''` guard.) -/
theorem content_export_records_parses_csv
    (header : String) (rows : List String)
    (hh : pyStrip header = header)
    (hr : ∀ r ∈ rows, pyStrip r = r) :
    content_export_records ((header :: rows).map (fun l => l ++ "\n"))
      = csvSpecRecords header rows := by
  unfold content_export_records csvSpecRecords
  simp only [List.map_cons, List.headD_cons, List.drop_succ_cons, List.drop_zero]
  rw [pyStrip_append_newline, hh]
  rw [List.filter_eq_self.mpr]
  · rw [List.map_map]
    apply List.map_congr_left
    intro r hrmem
    simp only [Function.comp_apply]
    rw [pyStrip_append_newline, hr r hrmem]
  · intro a ha
    rcases List.mem_map.mp ha with ⟨r, _, rfl⟩
    simpa using append_newline_ne_empty r

/-- Witness for `content_export_records_parses_csv` on a two-row file with
header `id,name`. -/
theorem content_export_records_parses_csv_witness :
    content_export_records ["id,name\n", "1,alice\n", "2,bob\n"]
      = [[("id", "1"), ("name", "alice")], [("id", "2"), ("name", "bob")]] := by
  have h := content_export_records_parses_csv "id,name" ["1,alice", "2,bob"]
      (by decide) (by decide)
  exact (by decide : content_export_records ["id,name\n", "1,alice\n", "2,bob\n"]
      = content_export_records ((["id,name", "1,alice", "2,bob"].map (fun l => l ++ "\n")))).trans
    (h.trans (by decide))

/-! ## Timestamps and `datetime.strptime(s, "%Y-%m-%dT%H:%M:%SZ")`

The tap converts configured/bookmarked date strings to Unix timestamps via
`int(datetime.timestamp(datetime.strptime(s, "%Y-%m-%dT%H:%M:%SZ")))`.
The proleptic-Gregorian calendar arithmetic below matches `datetime` (with
the naive datetime interpreted as UTC, the timezone the tap runs under); the
parser accepts the zero-padded rendering of the format and models the
`ValueError` raised on anything else as `Option.none`. -/

def isLeapYear (y : Nat) : Bool :=
  y % 4 == 0 && (y % 100 != 0 || y % 400 == 0)

def daysInMonth (y m : Nat) : Nat :=
  if m = 2 then (if isLeapYear y then 29 else 28)
  else if m = 4 ∨ m = 6 ∨ m = 9 ∨ m = 11 then 30 else 31

/-- Days contained in the years `1 .. y-1`. -/
def daysBeforeYear (y : Nat) : Nat :=
  let yy := y - 1
  365 * yy + yy / 4 - yy / 100 + yy / 400

/-- Days contained in the months `1 .. m-1` of year `y`. -/
def daysBeforeMonth (y m : Nat) : Nat :=
  ((List.range (m - 1)).map (fun i => daysInMonth y (i + 1))).sum

/-- Proleptic-Gregorian ordinal of a date, with 0001-01-01 = 1
(`datetime.toordinal`). -/
def toOrdinal (y m d : Nat) : Nat :=
  daysBeforeYear y + daysBeforeMonth y m + d

/-- Unix timestamp of a UTC civil datetime. -/
def civilTimestamp (y mo d h mi s : Nat) : Int :=
  86400 * ((toOrdinal y mo d : Int) - (toOrdinal 1970 1 1 : Int))
    + 3600 * h + 60 * mi + s

def digitsToNat? : List Char → Option Nat
  | [] => Option.some 0
  | c :: rest =>
      if c.isDigit then
        (digitsToNat? rest).map (fun n => (c.toNat - '0'.toNat) * 10 ^ rest.length + n)
      else Option.none

/-- `datetime.strptime(s, "%Y-%m-%dT%H:%M:%SZ")` for the zero-padded form of
the format, as the civil fields; `Option.none` models the `ValueError`. -/
def parseDateTimeZ (s : String) : Option (Nat × Nat × Nat × Nat × Nat × Nat) :=
  match s.toList with
  | [y1, y2, y3, y4, '-', m1, m2, '-', d1, d2, 'T',
     h1, h2, ':', i1, i2, ':', s1, s2, 'Z'] => do
      let y ← digitsToNat? [y1, y2, y3, y4]
      let mo ← digitsToNat? [m1, m2]
      let d ← digitsToNat? [d1, d2]
      let h ← digitsToNat? [h1, h2]
      let mi ← digitsToNat? [i1, i2]
      let sec ← digitsToNat? [s1, s2]
      if 1 ≤ y ∧ 1 ≤ mo ∧ mo ≤ 12 ∧ 1 ≤ d ∧ d ≤ daysInMonth y mo ∧
          h ≤ 23 ∧ mi ≤ 59 ∧ sec ≤ 59 then
        Option.some (y, mo, d, h, mi, sec)
      else Option.none
  | _ => Option.none

/-- `int(datetime.timestamp(datetime.strptime(s, "%Y-%m-%dT%H:%M:%SZ")))`. -/
def strptimeTimestampZ (s : String) : Option Int :=
  (parseDateTimeZ s).map (fun t => civilTimestamp t.1 t.2.1 t.2.2.1 t.2.2.2.1 t.2.2.2.2.1 t.2.2.2.2.2)

/-! ## Tap configuration -/

/-- The tap settings declared in `TapIntercom.config_jsonschema`
(tap.py lines 96-120); `base_url` carries its declared default. -/
structure Config where
  access_token : Option String := Option.none
  start_date : Option String := Option.none
  end_date : Option String := Option.none
  base_url : String := "https://api.intercom.io"
  deriving Repr, DecidableEq

/-! ## `IntercomStream.prepare_request_payload`  (client.py lines 129-161)

```python
if self.rest_method == "POST":
    body = {"sort": {"field": "updated_at", "order": "ascending"}}
    # start_date = self.get_starting_replication_key_value(context)
    start_date = self.config.get("start_date")
    if start_date:
        if type(start_date) == str:
            start_date = int(datetime.timestamp(datetime.strptime(start_date, "%Y-%m-%dT%H:%M:%SZ")))
        body["query"] = {"field": "updated_at", "operator": ">", "value": start_date}
    if next_page_token:
        body["pagination"] = {"per_page": 150, "starting_after": next_page_token}
    return body
else:
    return None
```

`contextBookmark` is the stream's tracked replication-key bookmark reachable
through `context`/tap state; the method receives it and does not read it (the
`get_starting_replication_key_value` call is commented out). -/

structure SearchQuery where
  field : String
  operator : String
  value : Int
  deriving Repr, DecidableEq

structure SearchPagination where
  per_page : Nat
  starting_after : String
  deriving Repr, DecidableEq

structure SearchBody where
  sort_field : String
  sort_order : String
  query : Option SearchQuery
  pagination : Option SearchPagination
  deriving Repr, DecidableEq

def prepare_request_payload (restMethod : String) (contextBookmark : Option String)
    (cfg : Config) (nextPageToken : Option String) :
    Except PyErr (Option SearchBody) :=
  if restMethod = "POST" then do
    let q : Option SearchQuery ←
      match cfg.start_date with
      | Option.none => Except.ok Option.none
      | Option.some s =>
          if s = "" then Except.ok Option.none
          else
            match strptimeTimestampZ s with
            | Option.some ts =>
                Except.ok (Option.some
                  {field := "updated_at", operator := ">", value := ts})
            | Option.none =>
                Except.error (PyErr.valueError "time data does not match format")
    Except.ok (Option.some
      {sort_field := "updated_at", sort_order := "ascending", query := q,
       pagination := nextPageToken.map
         (fun t => {per_page := 150, starting_after := t})})
  else
    Except.ok Option.none

/-! ## `ContentExportStream.get_payload`  (streams.py lines 815-832) -/

/-- Modelled from the spec: the host SDK helper
`get_starting_replication_key_value` (not part of this repository) returns
the stream's bookmarked replication-key value when one exists and the
configured start date otherwise ("track an incremental cursor per stream";
the C4 claim's own gloss of the helper). -/
def get_starting_replication_key_value (bookmark : Option String) (cfg : Config) :
    Option String :=
  match bookmark with
  | Option.some b => Option.some b
  | Option.none => cfg.start_date

structure ExportPayload where
  created_at_after : Option Int
  created_at_before : Int
  deriving Repr, DecidableEq

/-- The `start_date` part of `get_payload`: parse when it is a string,
keep `None` as-is. -/
def payloadStartField (x : Option String) : Except PyErr (Option Int) :=
  match x with
  | Option.none => Except.ok Option.none
  | Option.some s =>
      match strptimeTimestampZ s with
      | Option.some ts => Except.ok (Option.some ts)
      | Option.none =>
          Except.error (PyErr.valueError "time data does not match format")

/-- The `end_date` part of `get_payload`: a falsy configured value (absent or
empty) is replaced by `int(datetime.timestamp(utc_now()))`, a string is
parsed. -/
def payloadEndField (cfg : Config) (nowTs : Int) : Except PyErr Int :=
  match cfg.end_date with
  | Option.none => Except.ok nowTs
  | Option.some e =>
      if e = "" then Except.ok nowTs
      else
        match strptimeTimestampZ e with
        | Option.some ts => Except.ok ts
        | Option.none =>
            Except.error (PyErr.valueError "time data does not match format")

def get_payload (bookmark : Option String) (cfg : Config) (nowTs : Int) :
    Except PyErr ExportPayload := do
  let startV ← payloadStartField (get_starting_replication_key_value bookmark cfg)
  let endV ← payloadEndField cfg nowTs
  Except.ok {created_at_after := startV, created_at_before := endV}

/-- C4 counterexample: with a bookmarked cursor `2024-06-01T00:00:00Z` and a
configured start date `2023-01-01T00:00:00Z`, a POST search stream's
`prepare_request_payload` sends the timestamp of the static config start
date, not the tracked cursor the claim requires. -/
theorem prepare_request_payload_uses_config_not_bookmark :
    prepare_request_payload "POST" (Option.some "2024-06-01T00:00:00Z")
        {start_date := Option.some "2023-01-01T00:00:00Z"} Option.none
      = Except.ok (Option.some
          {sort_field := "updated_at", sort_order := "ascending",
           query := Option.some
             {field := "updated_at", operator := ">", value := 1672531200},
           pagination := Option.none}) ∧
    strptimeTimestampZ "2024-06-01T00:00:00Z" = Option.some 1717200000 ∧
    (1672531200 : Int) ≠ 1717200000 :=
  ⟨rfl, by decide, by decide⟩

theorem payloadStartField_ok (x : Option String) (sv : Option Int)
    (h : payloadStartField x = Except.ok sv) : sv = x.bind strptimeTimestampZ := by
  cases x with
  | none => simp [payloadStartField] at h; simp [h]
  | some s =>
      cases hp : strptimeTimestampZ s with
      | none => rw [payloadStartField, hp] at h; exact absurd h (by simp)
      | some ts =>
          rw [payloadStartField, hp] at h
          simp at h
          simp [hp, ← h]

/-- C4 (amended): the export streams' `get_payload` derives the window's
lower bound from the per-stream cursor (the bookmarked replication-key value
when one exists, otherwise the configured start date), while the POST search
streams' `prepare_request_payload` ignores the bookmark entirely and always
derives its `updated_at >` filter from the static config `start_date`. -/
theorem request_window_lower_bound :
    (∀ restM bm bm' cfg tok,
       prepare_request_payload restM bm cfg tok
         = prepare_request_payload restM bm' cfg tok) ∧
    (∀ bm cfg tok s ts, cfg.start_date = Option.some s → s ≠ "" →
       strptimeTimestampZ s = Option.some ts →
       prepare_request_payload "POST" bm cfg tok
         = Except.ok (Option.some
             {sort_field := "updated_at", sort_order := "ascending",
              query := Option.some
                {field := "updated_at", operator := ">", value := ts},
              pagination := tok.map
                (fun t => {per_page := 150, starting_after := t})})) ∧
    (∀ bm cfg nowTs p, get_payload bm cfg nowTs = Except.ok p →
       p.created_at_after
         = (get_starting_replication_key_value bm cfg).bind strptimeTimestampZ) := by
  refine ⟨?_, ?_, ?_⟩
  · intro restM bm bm' cfg tok
    rfl
  · intro bm cfg tok s ts h1 h2 h3
    simp [prepare_request_payload, h1, h2, h3]
  · intro bm cfg nowTs p h
    rw [get_payload] at h
    cases h1 : payloadStartField (get_starting_replication_key_value bm cfg) with
    | error e => rw [h1] at h; exact absurd h (by simp)
    | ok sv =>
        rw [h1] at h
        cases h2 : payloadEndField cfg nowTs with
        | error e => rw [h2] at h; exact absurd h (by simp)
        | ok ev =>
            rw [h2] at h
            simp at h
            rw [← h]
            exact payloadStartField_ok _ _ h1

/-- Witness for `request_window_lower_bound` at concrete bookmark, config
and pagination token. -/
theorem request_window_lower_bound_witness :
    prepare_request_payload "POST" (Option.some "2024-06-01T00:00:00Z")
        {start_date := Option.some "2023-01-01T00:00:00Z"} (Option.some "tok")
      = prepare_request_payload "POST" Option.none
        {start_date := Option.some "2023-01-01T00:00:00Z"} (Option.some "tok") ∧
    prepare_request_payload "POST" Option.none
        {start_date := Option.some "2023-01-01T00:00:00Z"} (Option.some "tok")
      = Except.ok (Option.some
          {sort_field := "updated_at", sort_order := "ascending",
           query := Option.some
             {field := "updated_at", operator := ">", value := 1672531200},
           pagination := Option.some {per_page := 150, starting_after := "tok"}}) ∧
    (({created_at_after := Option.some 1717200000,
       created_at_before := 1700000000} : ExportPayload).created_at_after
      = (get_starting_replication_key_value (Option.some "2024-06-01T00:00:00Z")
          {start_date := Option.some "2023-01-01T00:00:00Z"}).bind
          strptimeTimestampZ) := by
  refine ⟨?_, ?_, ?_⟩
  · exact request_window_lower_bound.1 "POST" (Option.some "2024-06-01T00:00:00Z")
      Option.none {start_date := Option.some "2023-01-01T00:00:00Z"} (Option.some "tok")
  · exact request_window_lower_bound.2.1 Option.none
      {start_date := Option.some "2023-01-01T00:00:00Z"} (Option.some "tok")
      "2023-01-01T00:00:00Z" 1672531200 rfl (by decide) (by decide)
  · exact request_window_lower_bound.2.2 (Option.some "2024-06-01T00:00:00Z")
      {start_date := Option.some "2023-01-01T00:00:00Z"} 1700000000
      {created_at_after := Option.some 1717200000, created_at_before := 1700000000}
      rfl

/-! ## Request URLs  (client.py lines 72-75, streams.py lines 805-844)

```python
@property
def url_base(self) -> str:
    """Return the API URL root, configurable via tap settings."""
    return "https://api.intercom.io"
```

The export streams build their job-submission, status, and download URLs
from `self.config['base_url']`. -/

def url_base (cfg : Config) : String :=
  "https://api.intercom.io"

def export_job_submission_url (cfg : Config) : String :=
  cfg.base_url ++ "/export/content/data"

def export_status_url (cfg : Config) (jobId : String) : String :=
  cfg.base_url ++ "/export/content/data/" ++ jobId

def export_download_url (cfg : Config) (jobId : String) : String :=
  cfg.base_url ++ "/download/content/data/" ++ jobId

/-- C5 evaluation at the failing input: with `base_url` configured to the EU
host, the export-stream URLs follow the configuration but the regular REST
streams' `url_base` still returns the hardcoded production URL, contradicting
its own docstring ("configurable via tap settings") and the config schema's
`base_url` setting. -/
theorem url_base_ignores_configured_base_url :
    url_base {base_url := "https://eu.api.intercom.io"} = "https://api.intercom.io" ∧
    url_base {base_url := "https://eu.api.intercom.io"} ≠ "https://eu.api.intercom.io" ∧
    export_job_submission_url {base_url := "https://eu.api.intercom.io"}
      = "https://eu.api.intercom.io/export/content/data" ∧
    export_status_url {base_url := "https://eu.api.intercom.io"} "job1"
      = "https://eu.api.intercom.io/export/content/data/job1" ∧
    export_download_url {base_url := "https://eu.api.intercom.io"} "job1"
      = "https://eu.api.intercom.io/download/content/data/job1" :=
  ⟨rfl, by decide, rfl, rfl, rfl⟩

/-! ## Filesystem frame  (tap.py lines 177-180, streams.py lines 841-863)

```python
@t.final
def sync_all(self) -> None:
    super().sync_all()
    os.system("rm -rf /tmp/intercom_data")
```

The filesystem is a flat association list from literal path strings to
entries.  During a sync the tap's own code touches the filesystem only in
`check_folder` (`os.makedirs('/tmp/intercom_data')`), `download_export`
(write the zip under the scratch directory, `extractall` into it, delete the
zip) and `get_records` (a read).  `extractall` places members under the
target directory (it sanitises escaping member names itself); paths here are
literal strings. -/

inductive FsEntry where
  | dir : FsEntry
  | file (content : String) : FsEntry
  deriving Repr, DecidableEq

abbrev FS := List (String × FsEntry)

inductive FsOp where
  | mkdirs (p : String)
  | putFile (p : String) (content : String)
  | extractTo (dir : String) (members : List (String × String))
  | rmFile (p : String)
  deriving Repr, DecidableEq

def fsSet (fs : FS) (p : String) (e : FsEntry) : FS :=
  (p, e) :: fs.filter (fun kv => kv.1 != p)

def fsRemove (fs : FS) (p : String) : FS :=
  fs.filter (fun kv => kv.1 != p)

def fsLookup (fs : FS) (p : String) : Option FsEntry :=
  (fs.find? (fun kv => kv.1 == p)).map (fun kv => kv.2)

def runFsOp (fs : FS) : FsOp → FS
  | FsOp.mkdirs p => fsSet fs p FsEntry.dir
  | FsOp.putFile p c => fsSet fs p (FsEntry.file c)
  | FsOp.extractTo dir members =>
      members.foldl (fun acc nc => fsSet acc (dir ++ nc.1) (FsEntry.file nc.2)) fs
  | FsOp.rmFile p => fsRemove fs p

def runFsOps (fs : FS) (ops : List FsOp) : FS :=
  ops.foldl runFsOp fs

/-- The paths an operation writes or removes. -/
def opPaths : FsOp → List String
  | FsOp.mkdirs p => [p]
  | FsOp.putFile p _ => [p]
  | FsOp.extractTo dir members => members.map (fun nc => dir ++ nc.1)
  | FsOp.rmFile p => [p]

def scratchDir : String := "/tmp/intercom_data"

def strIsPrefixOf (pre s : String) : Bool :=
  pre.toList.isPrefixOf s.toList

/-- `p` lies in the subtree `rm -rf /tmp/intercom_data` removes. -/
def inScratch (p : String) : Bool :=
  p == scratchDir || strIsPrefixOf (scratchDir ++ "/") p

/-- `os.system("rm -rf /tmp/intercom_data")`. -/
def rmrfScratch (fs : FS) : FS :=
  fs.filter (fun kv => !(inScratch kv.1))

/-- The filesystem operations one `ContentExportStream` performs during a
sync: `check_folder` creates the scratch directory when missing, and when the
directory listing is empty `download_export` writes the archive, extracts its
members into the scratch directory and deletes the archive. -/
def contentExportFsOps (dirMissing downloads : Bool) (zipBytes : String)
    (members : List (String × String)) : List FsOp :=
  (if dirMissing then [FsOp.mkdirs scratchDir] else []) ++
  (if downloads then
     [FsOp.putFile (scratchDir ++ "/tmp_intercom_data.zip") zipBytes,
      FsOp.extractTo (scratchDir ++ "/") members,
      FsOp.rmFile (scratchDir ++ "/tmp_intercom_data.zip")]
   else [])

/-- `TapIntercom.sync_all`: run the streams' sync (their filesystem
operations), then `rm -rf /tmp/intercom_data`. -/
def sync_all_fs (streamOps : List (List FsOp)) (fs : FS) : FS :=
  rmrfScratch (streamOps.foldl runFsOps fs)

theorem find?_filter_keyne (fs : FS) (p q : String) (h : q ≠ p) :
    (fs.filter (fun kv => kv.1 != p)).find? (fun kv => kv.1 == q)
      = fs.find? (fun kv => kv.1 == q) := by
  induction fs with
  | nil => rfl
  | cons kv rest ih =>
      rw [List.filter_cons]
      by_cases hk : kv.1 = p
      · have hkeep : (kv.1 != p) = false := by simp [hk]
        have hq : (kv.1 == q) = false := by
          simp [hk]
          exact fun hpq => (Ne.symm h) hpq
        rw [hkeep]
        simp only [Bool.false_eq_true, if_false]
        rw [ih, List.find?_cons, hq]
      · have hkeep : (kv.1 != p) = true := by simp [hk]
        rw [hkeep]
        simp only [if_true]
        rw [List.find?_cons, List.find?_cons]
        cases hq : (kv.1 == q) with
        | true => rfl
        | false => exact ih

theorem fsLookup_fsSet_ne (fs : FS) (p q : String) (e : FsEntry) (h : q ≠ p) :
    fsLookup (fsSet fs p e) q = fsLookup fs q := by
  unfold fsLookup fsSet
  rw [List.find?_cons]
  have hq : (p == q) = false := by
    simp
    exact fun hpq => (Ne.symm h) hpq
  rw [hq]
  rw [find?_filter_keyne fs p q h]

theorem fsLookup_fsRemove_ne (fs : FS) (p q : String) (h : q ≠ p) :
    fsLookup (fsRemove fs p) q = fsLookup fs q := by
  unfold fsLookup fsRemove
  rw [find?_filter_keyne fs p q h]

theorem extract_fold_frame (dir : String) (q : String) :
    ∀ (members : List (String × String)) (fs : FS),
      (∀ nc ∈ members, q ≠ dir ++ nc.1) →
      fsLookup (members.foldl
          (fun acc nc => fsSet acc (dir ++ nc.1) (FsEntry.file nc.2)) fs) q
        = fsLookup fs q := by
  intro members
  induction members with
  | nil =>
      intro fs h
      rfl
  | cons nc rest ih =>
      intro fs h
      rw [List.foldl_cons]
      rw [ih _ (fun nc' h' => h nc' (List.mem_cons_of_mem nc h'))]
      exact fsLookup_fsSet_ne fs (dir ++ nc.1) q (FsEntry.file nc.2)
        (h nc (List.mem_cons_self nc rest))

/-- An operation leaves the entry at any path it does not name unchanged. -/
theorem runFsOp_frame (op : FsOp) (fs : FS) (q : String)
    (h : q ∉ opPaths op) :
    fsLookup (runFsOp fs op) q = fsLookup fs q := by
  cases op with
  | mkdirs p =>
      have hq : q ≠ p := by simpa [opPaths] using h
      exact fsLookup_fsSet_ne fs p q FsEntry.dir hq
  | putFile p c =>
      have hq : q ≠ p := by simpa [opPaths] using h
      exact fsLookup_fsSet_ne fs p q (FsEntry.file c) hq
  | rmFile p =>
      have hq : q ≠ p := by simpa [opPaths] using h
      exact fsLookup_fsRemove_ne fs p q hq
  | extractTo dir members =>
      simp only [opPaths, List.mem_map] at h
      apply extract_fold_frame
      intro nc hnc hq
      exact h ⟨nc, hnc, hq.symm⟩

theorem runFsOps_frame (ops : List FsOp) :
    ∀ (fs : FS) (q : String),
      (∀ op ∈ ops, q ∉ opPaths op) →
      fsLookup (runFsOps fs ops) q = fsLookup fs q := by
  induction ops with
  | nil =>
      intro fs q h
      rfl
  | cons op rest ih =>
      intro fs q h
      rw [runFsOps, List.foldl_cons]
      have h1 := runFsOp_frame op fs q (h op (List.mem_cons_self op rest))
      have h2 := ih (runFsOp fs op) q
        (fun op' hop' => h op' (List.mem_cons_of_mem op hop'))
      rw [runFsOps] at h2
      rw [h2, h1]

theorem fsLookup_rmrf_inScratch (fs : FS) (p : String)
    (h : inScratch p = true) :
    fsLookup (rmrfScratch fs) p = Option.none := by
  unfold fsLookup rmrfScratch
  induction fs with
  | nil => rfl
  | cons kv rest ih =>
      rw [List.filter_cons]
      by_cases hk : inScratch kv.1 = true
      · simp only [hk, Bool.not_true, Bool.false_eq_true, if_false]
        exact ih
      · have hk' : (!(inScratch kv.1)) = true := by
          simp at hk
          simp [hk]
        rw [hk']
        simp only [if_true]
        rw [List.find?_cons]
        have hq : (kv.1 == p) = false := by
          simp
          intro he
          rw [he] at hk
          exact hk h
        rw [hq]
        exact ih

theorem fsLookup_rmrf_notScratch (fs : FS) (p : String)
    (h : inScratch p = false) :
    fsLookup (rmrfScratch fs) p = fsLookup fs p := by
  unfold fsLookup rmrfScratch
  induction fs with
  | nil => rfl
  | cons kv rest ih =>
      rw [List.filter_cons]
      by_cases hk : inScratch kv.1 = true
      · have hq : (kv.1 == p) = false := by
          simp
          intro he
          rw [he, h] at hk
          exact Bool.false_ne_true hk
        simp only [hk, Bool.not_true, Bool.false_eq_true, if_false]
        rw [ih, List.find?_cons, hq]
      · have hk' : (!(inScratch kv.1)) = true := by
          simp at hk
          simp [hk]
        rw [hk']
        simp only [if_true]
        rw [List.find?_cons, List.find?_cons]
        cases hq : (kv.1 == p) with
        | true => rfl
        | false => exact ih

theorem strIsPrefixOf_append (a b : String) :
    strIsPrefixOf a (a ++ b) = true := by
  unfold strIsPrefixOf
  have h1 : (a ++ b).toList = a.toList ++ b.toList := by
    simp [String.toList, String.data_append]
  rw [h1]
  exact List.isPrefixOf_iff_prefix.mpr (List.prefix_append a.toList b.toList)

/-- Every path a content-export stream's filesystem operation touches lies in
the scratch subtree. -/
theorem contentExportFsOps_paths_in_scratch
    (dirMissing downloads : Bool) (zipBytes : String)
    (members : List (String × String)) :
    ∀ op ∈ contentExportFsOps dirMissing downloads zipBytes members,
      ∀ r ∈ opPaths op, inScratch r = true := by
  intro op hop r hr
  unfold contentExportFsOps at hop
  rw [List.mem_append] at hop
  rcases hop with h1 | h2
  · cases dirMissing with
    | false => simp at h1
    | true =>
        simp at h1
        subst h1
        simp [opPaths] at hr
        subst hr
        decide
  · cases downloads with
    | false => simp at h2
    | true =>
        simp at h2
        rcases h2 with h2 | h2 | h2
        · subst h2
          simp [opPaths] at hr
          subst hr
          decide
        · subst h2
          simp [opPaths] at hr
          rcases hr with ⟨nc, hnc, hre⟩
          rw [← hre]
          unfold inScratch
          rw [strIsPrefixOf_append]
          simp
        · subst h2
          simp [opPaths] at hr
          subst hr
          decide

theorem foldl_runFsOps_frame (streamOps : List (List FsOp)) :
    ∀ (fs : FS) (q : String),
      (∀ ops ∈ streamOps, ∀ op ∈ ops, ∀ r ∈ opPaths op, inScratch r = true) →
      inScratch q = false →
      fsLookup (streamOps.foldl runFsOps fs) q = fsLookup fs q := by
  induction streamOps with
  | nil =>
      intro fs q h hq
      rfl
  | cons ops rest ih =>
      intro fs q h hq
      rw [List.foldl_cons]
      have h1 : fsLookup (runFsOps fs ops) q = fsLookup fs q := by
        apply runFsOps_frame
        intro op hop hmem
        have hT := h ops (List.mem_cons_self ops rest) op hop q hmem
        rw [hT] at hq
        exact Bool.noConfusion hq
      rw [ih (runFsOps fs ops) q
        (fun ops' h' => h ops' (List.mem_cons_of_mem ops h')) hq, h1]

/-- C6: after `sync_all` the scratch subtree `/tmp/intercom_data` is gone no
matter which streams ran or what they staged, paths outside the subtree are
exactly as before the sync, and every filesystem operation of the tap's own
export code indeed stays inside the subtree. -/
theorem sync_all_scratch_frame
    (streamOps : List (List FsOp))
    (hops : ∀ ops ∈ streamOps, ∀ op ∈ ops, ∀ r ∈ opPaths op, inScratch r = true)
    (fs : FS) (p : String) :
    (inScratch p = true → fsLookup (sync_all_fs streamOps fs) p = Option.none) ∧
    (inScratch p = false → fsLookup (sync_all_fs streamOps fs) p = fsLookup fs p) ∧
    (∀ dirMissing downloads zipBytes members,
       ∀ op ∈ contentExportFsOps dirMissing downloads zipBytes members,
         ∀ r ∈ opPaths op, inScratch r = true) := by
  refine ⟨?_, ?_, ?_⟩
  · intro hp
    exact fsLookup_rmrf_inScratch _ p hp
  · intro hp
    rw [sync_all_fs, fsLookup_rmrf_notScratch _ p hp]
    exact foldl_runFsOps_frame streamOps fs p hops hp
  · exact contentExportFsOps_paths_in_scratch

/-- Witness for `sync_all_scratch_frame`: one export stream stages a file, a
path outside `/tmp/intercom_data` is untouched and a staged path is gone. -/
theorem sync_all_scratch_frame_witness :
    fsLookup (sync_all_fs
        [contentExportFsOps true true "PKzip"
          [("answer_20240101-000000.csv", "id\n1")]]
        [("/etc/hosts", FsEntry.file "localhost")])
      "/tmp/intercom_data/answer_20240101-000000.csv" = Option.none ∧
    fsLookup (sync_all_fs
        [contentExportFsOps true true "PKzip"
          [("answer_20240101-000000.csv", "id\n1")]]
        [("/etc/hosts", FsEntry.file "localhost")])
      "/etc/hosts" = Option.some (FsEntry.file "localhost") := by
  have h := sync_all_scratch_frame
      [contentExportFsOps true true "PKzip" [("answer_20240101-000000.csv", "id\n1")]]
      (by
        intro ops hops
        simp at hops
        subst hops
        exact contentExportFsOps_paths_in_scratch true true "PKzip"
          [("answer_20240101-000000.csv", "id\n1")])
      [("/etc/hosts", FsEntry.file "localhost")]
  refine ⟨(h "/tmp/intercom_data/answer_20240101-000000.csv").1 (by decide), ?_⟩
  have h2 := (h "/etc/hosts").2.1 (by decide)
  rw [h2]
  rfl

/-! ## Error propagation  (streams.py lines 834-852)

```python
def check_status(self, job_identifier: str) -> str:
    response = requests.get(...)
    return response.json()["status"]

def download_export(self, job_identifier: str):
    response = requests.get(...)
    with open(f'/tmp/intercom_data/{file_name}', 'wb') as file:
        file.write(response.content)
    self.decompress_zip(...)
    self.delete_zipfile(...)
```

The repository contains no `try`/`except`.  The outcomes of the external
operations (the HTTP call plus JSON parse, the file write, `extractall`,
`os.remove`) enter as `Except` values; the functions sequence them without
catching, wrapping or translating anything. -/

def check_status (httpResult : Except PyErr Py) : Except PyErr Py := do
  let body ← httpResult
  pyGetItem body "status"

def download_export (httpResult : Except PyErr String)
    (writeResult : Except PyErr Unit) (unzipResult : Except PyErr Unit)
    (removeResult : Except PyErr Unit) : Except PyErr Unit := do
  let _content ← httpResult
  let _ ← writeResult
  let _ ← unzipResult
  let _ ← removeResult
  Except.ok ()

/-- C7: every error arising below `check_status` or `download_export` comes
back to the caller as exactly the same error: a failed HTTP call propagates
unchanged, a status body without a `"status"` key surfaces as the plain
`KeyError` of the subscript, and a failure at any stage of the download
(HTTP, file write, bad zip, file delete) is returned unmodified. -/
theorem errors_propagate_unmodified :
    (∀ e, check_status (Except.error e) = Except.error e) ∧
    (∀ body, check_status (Except.ok body) = pyGetItem body "status") ∧
    (∀ kvs, (kvs.find? (fun p => p.1 == "status")) = Option.none →
       check_status (Except.ok (Py.dict kvs))
         = Except.error (PyErr.keyError "status")) ∧
    (∀ e w u r, download_export (Except.error e) w u r = Except.error e) ∧
    (∀ c e u r, download_export (Except.ok c) (Except.error e) u r
       = Except.error e) ∧
    (∀ c e r, download_export (Except.ok c) (Except.ok ()) (Except.error e) r
       = Except.error e) ∧
    (∀ c e, download_export (Except.ok c) (Except.ok ()) (Except.ok ())
       (Except.error e) = Except.error e) := by
  refine ⟨fun e => rfl, fun body => rfl, ?_, fun e w u r => rfl,
    fun c e u r => rfl, fun c e r => rfl, fun c e => rfl⟩
  intro kvs h
  show pyGetItem (Py.dict kvs) "status" = Except.error (PyErr.keyError "status")
  rw [pyGetItem, h]

/-- Witness for `errors_propagate_unmodified`: a body without a `"status"`
key yields the bare `KeyError`, and a bad zip error surfaces unmodified from
`download_export`. -/
theorem errors_propagate_unmodified_witness :
    check_status (Except.ok (Py.dict [("job_identifier", Py.str "j1")]))
      = Except.error (PyErr.keyError "status") ∧
    download_export (Except.ok "bytes") (Except.ok ())
        (Except.error (PyErr.badZipFile "File is not a zip file"))
        (Except.ok ())
      = Except.error (PyErr.badZipFile "File is not a zip file") := by
  constructor
  · exact errors_propagate_unmodified.2.2.1 [("job_identifier", Py.str "j1")] rfl
  · exact errors_propagate_unmodified.2.2.2.2.2.1 "bytes"
      (PyErr.badZipFile "File is not a zip file") (Except.ok ())

/-- C9: when the scratch directory already exists and is non-empty,
`request_content_export` performs nothing at all — no job submission, no
status check, no sleep, no download (the trace is empty) — and the stream's
filesystem operations in that situation leave the staged files untouched, so
later export streams in the same sync parse the files staged by the first
job. -/
theorem request_content_export_skips_when_staged
    (files statuses zipNames : List String) (zipBytes : String)
    (members : List (String × String)) (fs : FS)
    (hne : files ≠ []) :
    request_content_export_trace true files statuses zipNames
      = Option.some [] ∧
    runFsOps fs (contentExportFsOps false false zipBytes members) = fs := by
  constructor
  · rw [request_content_export_trace]
    simp [hne]
  · rfl

/-- Witness for `request_content_export_skips_when_staged` with one staged
file. -/
theorem request_content_export_skips_witness :
    request_content_export_trace true ["answer_20240101-000000.csv"]
        ["failed", "completed"] ["x.csv"] = Option.some [] ∧
    runFsOps [("/tmp/intercom_data/answer_20240101-000000.csv",
        FsEntry.file "id\n1")]
      (contentExportFsOps false false "PK" [("x.csv", "a")])
      = [("/tmp/intercom_data/answer_20240101-000000.csv",
          FsEntry.file "id\n1")] :=
  request_content_export_skips_when_staged ["answer_20240101-000000.csv"]
    ["failed", "completed"] ["x.csv"] "PK" [("x.csv", "a")]
    [("/tmp/intercom_data/answer_20240101-000000.csv", FsEntry.file "id\n1")]
    (by decide)

/-! ## `TapIntercom.discover_streams`  (tap.py lines 122-175)

The catalog is the literal list of export-stream instantiations followed by
one stream per `STREAMS_DCT` entry (Python dicts iterate in insertion
order).  A catalog stream is represented by its name, primary keys and
replication key.  The `ContentExportStream` constructor stores the `name` and
`replication_key` it is given (streams.py lines 759-762); the
`ReportExportStream` class itself is not part of the sources at hand, its
constructor is modelled from the spec (an export stream storing the name and
replication key passed by the tap, like the content-export flow it belongs
to). -/

structure CatalogEntry where
  name : String
  primary_keys : List String
  replication_key : Option String
  deriving Repr, DecidableEq

/-- The export-stream instantiations at the top of `discover_streams`
(tap.py lines 127-155), all with `primary_keys=[]`. -/
def exportCatalog : List CatalogEntry :=
  [{name := "answer", primary_keys := [], replication_key := Option.some "answered_at"},
   {name := "answer_combined", primary_keys := [], replication_key := Option.some "completed_at"},
   {name := "checkpoint", primary_keys := [], replication_key := Option.some "created_at"},
   {name := "click", primary_keys := [], replication_key := Option.some "clicked_at"},
   {name := "completion", primary_keys := [], replication_key := Option.some "completed_at"},
   {name := "dismissal", primary_keys := [], replication_key := Option.some "dismissed_at"},
   {name := "open", primary_keys := [], replication_key := Option.some "opened_at"},
   {name := "overview", primary_keys := [], replication_key := Option.some "created_at"},
   {name := "receipt", primary_keys := [], replication_key := Option.some "received_at"},
   {name := "reply", primary_keys := [], replication_key := Option.some "replied_at"},
   {name := "series_completion", primary_keys := [], replication_key := Option.some "completed_at"},
   {name := "series_disengagement", primary_keys := [], replication_key := Option.some "disengaged_at"},
   {name := "tour_step_view", primary_keys := [], replication_key := Option.some "viewed_at"},
   {name := "admin_status_change", primary_keys := [], replication_key := Option.some "teammate_status_period_started_at"},
   {name := "consolidated_conversation_part", primary_keys := [], replication_key := Option.some "action_time"},
   {name := "conversation", primary_keys := [], replication_key := Option.some "conversation_started_at"},
   {name := "conversation_rating_sent", primary_keys := [], replication_key := Option.some "conversation_rating_updated_at"},
   {name := "conversation_sla_status_log", primary_keys := [], replication_key := Option.some "sla_started_at"},
   {name := "conversation_state", primary_keys := [], replication_key := Option.some "conversation_state_started_at"},
   {name := "copilot_prompt_response_pair", primary_keys := [], replication_key := Option.some "replied_at"},
   {name := "teammate_handling_conversation", primary_keys := [], replication_key := Option.some "conversation_started_at"},
   {name := "ticket_time_in_state", primary_keys := [], replication_key := Option.some "ticket_created_at"},
   {name := "tickets_report", primary_keys := [], replication_key := Option.some "ticket_created_at"}]

/-- The keys of `STREAMS_DCT` (tap.py lines 29-43) in insertion order. -/
def STREAMS_DCT_names : List String :=
  ["conversations", "conversation_parts", "collections", "contacts_list",
   "contacts", "admins", "articles", "events", "tags", "teams",
   "tickets_list", "tickets", "segments"]

/-- `REPLICATION_KEY_MAPPING` (tap.py lines 76-90). -/
def REPLICATION_KEY_MAPPING : List (String × Option String) :=
  [("conversations", Option.some "updated_at"),
   ("conversation_parts", Option.some "updated_at"),
   ("contacts_list", Option.none),
   ("contacts", Option.some "updated_at"),
   ("collections", Option.some "updated_at"),
   ("events", Option.none),
   ("admins", Option.none),
   ("articles", Option.some "updated_at"),
   ("tags", Option.none),
   ("teams", Option.none),
   ("tickets_list", Option.none),
   ("tickets", Option.some "updated_at"),
   ("segments", Option.none)]

def replicationKeyFor (n : String) : Option String :=
  match REPLICATION_KEY_MAPPING.find? (fun kv => kv.1 == n) with
  | Option.some kv => kv.2
  | Option.none => Option.none

/-- The primary-key selection of the `discover_streams` loop
(tap.py lines 158-172): start from `[]`; when the config carries a
`primary_keys` entry, the dict is non-empty and it has a key for this
stream, take that value. -/
def pkFor (cfgPk : Option (List (String × List String))) (n : String) :
    List String :=
  match cfgPk with
  | Option.none => []
  | Option.some pks =>
      if 0 < pks.length ∧ pks.any (fun kv => kv.1 == n) then
        match pks.find? (fun kv => kv.1 == n) with
        | Option.some kv => kv.2
        | Option.none => []
      else []

/-- The primary-key rule as the C8 claim words it: the configured per-stream
override when that entry is present and non-empty, the empty list
otherwise. -/
def claimPk (cfgPk : Option (List (String × List String))) (n : String) :
    List String :=
  match cfgPk.bind (fun pks =>
      (pks.find? (fun kv => kv.1 == n)).map (fun kv => kv.2)) with
  | Option.some l => if l.isEmpty then [] else l
  | Option.none => []

def discover_streams (cfgPk : Option (List (String × List String))) :
    List CatalogEntry :=
  exportCatalog ++
  STREAMS_DCT_names.map (fun n =>
    {name := n, primary_keys := pkFor cfgPk n,
     replication_key := replicationKeyFor n})

theorem pkFor_eq_claimPk (cfgPk : Option (List (String × List String)))
    (n : String) : pkFor cfgPk n = claimPk cfgPk n := by
  cases cfgPk with
  | none => rfl
  | some pks =>
      rw [pkFor, claimPk]
      cases hf : pks.find? (fun kv => kv.1 == n) with
      | none =>
          have hany : pks.any (fun kv => kv.1 == n) = false := by
            rw [List.any_eq_false]
            intro kv hkv
            have := List.find?_eq_none.mp hf kv hkv
            simpa using this
          simp [hany, hf]
      | some kv =>
          have hp : (kv.1 == n) = true := by
            have h2 := List.find?_some hf
            simpa using h2
          have hany : pks.any (fun kv => kv.1 == n) = true :=
            List.any_eq_true.mpr ⟨kv, List.mem_of_find?_eq_some hf, hp⟩
          have hlen : 0 < pks.length := by
            cases pks with
            | nil => exact absurd hf (by simp)
            | cons a l => simp
          simp only [Option.some_bind]
          rw [hf]
          simp only [hlen, hany, and_self, if_true, Option.map_some]
          cases hkv2 : kv.2 with
          | nil => simp [hkv2]
          | cons a l => simp [hkv2]

/-- C8: `discover_streams` returns, for every configuration, the same fixed
catalog of stream names; each `STREAMS_DCT` stream carries the per-stream
`primary_keys` override exactly when the config entry is present and
non-empty (the empty list otherwise) and its replication key from the fixed
`REPLICATION_KEY_MAPPING`; the export streams carry their hardcoded
replication keys and empty primary keys. -/
theorem discover_streams_catalog (cfgPk : Option (List (String × List String))) :
    discover_streams cfgPk = exportCatalog ++
      STREAMS_DCT_names.map (fun n =>
        {name := n, primary_keys := claimPk cfgPk n,
         replication_key := replicationKeyFor n}) ∧
    (discover_streams cfgPk).map (fun e => e.name)
      = exportCatalog.map (fun e => e.name) ++ STREAMS_DCT_names := by
  constructor
  · rw [discover_streams]
    congr 1
    apply List.map_congr_left
    intro n _
    rw [pkFor_eq_claimPk]
  · rw [discover_streams]
    rw [List.map_append, List.map_map]
    congr 1

/-! ## `ContentExportStream.get_records` state bookmark
(streams.py lines 772-787, 865-873)

```python
def get_filename(self):
    files = os.listdir('/tmp/intercom_data/')
    for file in files:
        if re.match(self.name + r'_\d{8}-\d{6}\.csv', file):
            return file

def hour_rounder(self, timestamp):
    return (timestamp.replace(second=0, microsecond=0, minute=0, hour=timestamp.hour)
            +timedelta(hours=timestamp.minute//30))
```

and, after yielding the records of the matched file,

```python
current_time = self.hour_rounder(utc_now()).strftime("%Y-%m-%dT%H:%M:%SZ")
self._tap.state['bookmarks'][self.name] = {'replication_key': self.replication_key,
                                           'replication_key_value': current_time}
```

`re.match` anchors the pattern only at the start of the file name: a name
that merely begins with `<name>_\d{8}-\d{6}\.csv` matches. -/

structure PyDateTime where
  year : Nat
  month : Nat
  day : Nat
  hour : Nat
  minute : Nat
  second : Nat
  microsecond : Nat
  deriving Repr, DecidableEq

/-- `+ timedelta(hours=1)` on a valid datetime, with calendar rollover. -/
def addOneHour (t : PyDateTime) : PyDateTime :=
  if t.hour + 1 ≤ 23 then {t with hour := t.hour + 1}
  else if t.day + 1 ≤ daysInMonth t.year t.month then
    {t with hour := 0, day := t.day + 1}
  else if t.month + 1 ≤ 12 then
    {t with hour := 0, day := 1, month := t.month + 1}
  else
    {t with hour := 0, day := 1, month := 1, year := t.year + 1}

def hour_rounder (t : PyDateTime) : PyDateTime :=
  addOneHour^[t.minute / 30]
    {t with minute := 0, second := 0, microsecond := 0}

def padNum (k n : Nat) : String :=
  let s := toString n
  String.mk (List.replicate (k - s.length) '0') ++ s

/-- `dt.strftime("%Y-%m-%dT%H:%M:%SZ")`. -/
def strftimeZ (t : PyDateTime) : String :=
  padNum 4 t.year ++ "-" ++ padNum 2 t.month ++ "-" ++ padNum 2 t.day ++ "T" ++
  padNum 2 t.hour ++ ":" ++ padNum 2 t.minute ++ ":" ++ padNum 2 t.second ++ "Z"

def dropExact : List Char → List Char → Option (List Char)
  | [], rest => Option.some rest
  | _ :: _, [] => Option.none
  | c :: ps, d :: rest => if c = d then dropExact ps rest else Option.none

def dropDigits : Nat → List Char → Option (List Char)
  | 0, cs => Option.some cs
  | _ + 1, [] => Option.none
  | n + 1, c :: rest => if c.isDigit then dropDigits n rest else Option.none

/-- What is left of `file` after the regex `<name>_\d{8}-\d{6}\.csv` has
consumed its match at the start; `Option.none` when it does not match. -/
def exportPatternRemainder (name file : String) : Option (List Char) := do
  let r1 ← dropExact (name.toList ++ ['_']) file.toList
  let r2 ← dropDigits 8 r1
  let r3 ← dropExact ['-'] r2
  let r4 ← dropDigits 6 r3
  dropExact ['.', 'c', 's', 'v'] r4

/-- `re.match(name + r'_\d{8}-\d{6}\.csv', file)` is truthy: the pattern
matches a prefix of the file name. -/
def matchesExportPrefix (name file : String) : Bool :=
  (exportPatternRemainder name file).isSome

/-- The C10 claim's reading: the whole file name matches the pattern. -/
def matchesExportFull (name file : String) : Bool :=
  match exportPatternRemainder name file with
  | Option.some [] => true
  | _ => false

/-- `get_filename`: the first directory entry `re.match`ed by the pattern. -/
def get_filename (name : String) (files : List String) : Option String :=
  files.find? (fun f => matchesExportPrefix name f)

structure Bookmark where
  replication_key : Option String
  replication_key_value : String
  deriving Repr, DecidableEq

/-- Python dict assignment `state['bookmarks'][name] = v` on the bookmarks
association list. -/
def stateSet (st : List (String × Bookmark)) (k : String) (v : Bookmark) :
    List (String × Bookmark) :=
  (k, v) :: st.filter (fun kv => kv.1 != k)

/-- `get_records` after `request_content_export`: look up the stream's staged
file among the scratch-directory listing (`files` pairs each file name with
its raw lines), parse it, and set the stream's bookmark to the hour-rounded
current time; yield nothing and leave the state alone when no file
matches. -/
def get_records_effect (streamName : String) (replKey : Option String)
    (files : List (String × List String)) (now : PyDateTime)
    (st : List (String × Bookmark)) :
    List (List (String × String)) × List (String × Bookmark) :=
  match get_filename streamName (files.map Prod.fst) with
  | Option.none => ([], st)
  | Option.some fname =>
      let rawLines := ((files.find? (fun f => f.1 == fname)).map Prod.snd).getD []
      (content_export_records rawLines,
       stateSet st streamName
         {replication_key := replKey,
          replication_key_value := strftimeZ (hour_rounder now)})

/-- C10 counterexample: with the scratch directory containing only
`answer_20240101-000000.csv.bak`, no file name matches the claim's pattern
`answer_\d{8}-\d{6}\.csv` as a whole, yet `get_records` yields that file's
records and updates the bookmark, because `re.match` only anchors the
pattern at the start of the name. -/
theorem get_records_updates_without_full_match :
    (["answer_20240101-000000.csv.bak"].all
        (fun f => !(matchesExportFull "answer" f))) = true ∧
    (get_records_effect "answer" (Option.some "answered_at")
        [("answer_20240101-000000.csv.bak", ["id\n", "1\n"])]
        ⟨2024, 1, 2, 10, 40, 30, 5⟩ []).2
      = [("answer",
          {replication_key := Option.some "answered_at",
           replication_key_value := "2024-01-02T11:00:00Z"})] := by
  constructor
  · decide
  · rfl

/-- C10 (amended): `get_records` updates the tap-state bookmark for its
stream if and only if a staged file whose name BEGINS with
`<stream name>_\d{8}-\d{6}\.csv` exists (`re.match` prefix semantics); when
one does, the bookmark's `replication_key_value` is the current UTC time
rounded to the nearest hour — down when the minute is below 30, up otherwise,
seconds and microseconds zeroed — independent of the record contents; when no
such file exists nothing is yielded and the state is unchanged. -/
theorem get_records_state_bookmark
    (streamName : String) (replKey : Option String)
    (files : List (String × List String)) (now : PyDateTime)
    (st : List (String × Bookmark)) (hm : now.minute < 60) :
    (get_filename streamName (files.map Prod.fst) = Option.none →
       get_records_effect streamName replKey files now st = ([], st)) ∧
    (∀ fname, get_filename streamName (files.map Prod.fst) = Option.some fname →
       (get_records_effect streamName replKey files now st).2
         = stateSet st streamName
             {replication_key := replKey,
              replication_key_value := strftimeZ (hour_rounder now)}) ∧
    (now.minute < 30 →
       hour_rounder now = {now with minute := 0, second := 0, microsecond := 0}) ∧
    (30 ≤ now.minute →
       hour_rounder now
         = addOneHour {now with minute := 0, second := 0, microsecond := 0}) := by
  refine ⟨?_, ?_, ?_, ?_⟩
  · intro h
    rw [get_records_effect, h]
  · intro fname h
    rw [get_records_effect, h]
  · intro h
    have hdiv : now.minute / 30 = 0 := Nat.div_eq_of_lt h
    rw [hour_rounder, hdiv]
    rfl
  · intro h
    have hdiv : now.minute / 30 = 1 := by omega
    rw [hour_rounder, hdiv]
    rfl

/-- Witness for `get_records_state_bookmark`: a staged `answer` file and the
clock at 2024-01-02 10:40:30.000005 UTC; the bookmark lands on 11:00. -/
theorem get_records_state_bookmark_witness :
    (get_records_effect "answer" (Option.some "answered_at")
        [("answer_20240102-000000.csv", ["id\n", "1\n"])]
        ⟨2024, 1, 2, 10, 40, 30, 5⟩ []).2
      = stateSet [] "answer"
          {replication_key := Option.some "answered_at",
           replication_key_value :=
             strftimeZ (hour_rounder ⟨2024, 1, 2, 10, 40, 30, 5⟩)} ∧
    hour_rounder ⟨2024, 1, 2, 10, 40, 30, 5⟩
      = addOneHour ⟨2024, 1, 2, 10, 0, 0, 0⟩ := by
  have h := get_records_state_bookmark "answer" (Option.some "answered_at")
      [("answer_20240102-000000.csv", ["id\n", "1\n"])]
      ⟨2024, 1, 2, 10, 40, 30, 5⟩ [] (by decide)
  exact ⟨h.2.1 "answer_20240102-000000.csv" rfl, h.2.2.2 (by decide)⟩

end TapIntercom
